import Mathlib

/-!
Verification of the build-preset resolution logic of the
maplibre-native-from-source repository.

The repository contains two revisions of a build script
(`src/scripts/build-maplibre.js`, the current one, and `src/unnamed/part_000`,
an earlier revision), each with a `getPresetInfo` function mapping the host
(platform, architecture) pair to a CMake preset, generator, extra cmake
arguments and a build directory, plus a pair of prepack/postpack helpers
(`src/unnamed/part_001` and `src/scripts/postpack.js`) that temporarily rename
`maplibre-native/.npmignore` around packaging.

The shallow embedding below models:
  - `process.platform` / `process.arch` as plain strings (the JS values are
    strings compared with `===`);
  - the `CMakePresets.json` manifest as a structure; the attempted
    `require(cmakePresetsPath)` as an `Except String CMakePresets` parameter
    (`.error e` models the manifest being absent, unreadable or unparsable,
    with `e` the thrown message);
  - side effects (the manifest read attempt, `console.warn`) as an explicit
    effect trace, so that "no filesystem access happened" is the trace being
    empty;
  - `path.join(a, b)` as `a ++ "/" ++ b` (the POSIX view; both uses in the
    scripts join a directory with a separator-free component);
  - JavaScript `String.prototype.replace(pat, rep)` with a string pattern,
    which replaces only the first occurrence, as `replaceFirst`;
  - the filesystem touched by the prepack/postpack helpers as a map from
    path strings to optional file contents, with `fs.renameSync` overwriting
    its destination as the Node primitive does.
-/

deriving instance DecidableEq for Except

/-- Observable side effects of the resolution logic: an attempted read of
`CMakePresets.json` (the `require(cmakePresetsPath)` call), and a
`console.warn` with the caught error message. -/
inductive Effect where
  | manifestRead : Effect
  | warn : String → Effect
deriving Repr, DecidableEq

/-- The `cacheVariables` object of a configure preset, as read by the build
scripts (only `CMAKE_BUILD_TYPE` is consulted). -/
structure CacheVariables where
  CMAKE_BUILD_TYPE : Option String
deriving Repr, DecidableEq

/-- One entry of the `configurePresets` array of `CMakePresets.json`, with the
fields the scripts read: `name`, the optional `binaryDir` template and the
optional `cacheVariables` object. -/
structure ConfigurePreset where
  name : String
  binaryDir : Option String
  cacheVariables : Option CacheVariables
deriving Repr, DecidableEq

/-- The parsed `CMakePresets.json` manifest: its `configurePresets` array. -/
structure CMakePresets where
  configurePresets : List ConfigurePreset
deriving Repr, DecidableEq

/-- The Resolution Result returned by `getPresetInfo` in both script
revisions: `{ presetName, buildDir, generator, cmakeArgs, arch }`. -/
structure PresetInfo where
  presetName : String
  buildDir : String
  generator : String
  cmakeArgs : List String
  arch : String
deriving Repr, DecidableEq

/-- Whether the character list `pat` is an initial segment of `s`. -/
def listStartsWith : List Char → List Char → Bool
  | _, [] => true
  | [], _ :: _ => false
  | a :: as, b :: bs => a == b && listStartsWith as bs

/-- Replace the first occurrence of `pat` (non-empty) in the character list,
scanning left to right. -/
def replaceFirstAux (pat rep : List Char) : List Char → List Char
  | [] => []
  | c :: rest =>
    if listStartsWith (c :: rest) pat then rep ++ (c :: rest).drop pat.length
    else c :: replaceFirstAux pat rep rest

/-- JavaScript `s.replace(pat, rep)` with a string pattern: replace the first
occurrence of `pat` in `s` by `rep` (no occurrence: `s` unchanged). The
`$`-escape forms of the JS replacement string are not modelled; the
replacements used by the scripts are filesystem paths. Both patterns the
scripts use are non-empty. -/
def replaceFirst (s pat rep : String) : String :=
  ⟨replaceFirstAux pat.data rep.data s.data⟩

/-- JavaScript `s.startsWith(pre)`, on the character lists. -/
def strStartsWith (s pre : String) : Bool :=
  listStartsWith s.data pre.data

/-- `path.join(a, b)` for the scripts' uses (POSIX separator). -/
def pathJoin (a b : String) : String := a ++ "/" ++ b

/-- The literal placeholder `$\x7bsourceDir\x7d` that
`build-maplibre.js` substitutes in a `binaryDir` template. -/
def sourceDirPlaceholder : String := "$\x7bsourceDir\x7d"

/-- Build-directory determination of `src/scripts/build-maplibre.js`
(lines 149-167): try to read the manifest; on success look up the preset by
name and, when it has a `binaryDir`, substitute the source directory for the
`$\x7bsourceDir\x7d` placeholder; when the read throws, warn and synthesize
`<sourceDir>/build-<presetName>`. Returns the determined dir (`none` when the
caller must fall back) and the effect trace. -/
def determineBuildDir (sourceDir presetName : String)
    (manifest : Except String CMakePresets) : Option String × List Effect :=
  match manifest with
  | .ok presetsData =>
    match presetsData.configurePresets.find? (fun p => p.name == presetName) with
    | some configurePreset =>
      match configurePreset.binaryDir with
      | some bd =>
        (some (replaceFirst bd sourceDirPlaceholder sourceDir), [Effect.manifestRead])
      | none => (none, [Effect.manifestRead])
    | none => (none, [Effect.manifestRead])
  | .error e =>
    (some (pathJoin sourceDir ("build-" ++ presetName)),
      [Effect.manifestRead, Effect.warn e])

/-- Build-directory determination of `src/unnamed/part_000` (lines 49-69):
identical structure, but the substitution is `binaryDir.replace('$',
maplibreNativeSourceDir)` — only the literal dollar sign — followed by a
`startsWith` check that falls back to `path.join(sourceDir, binaryDir)`. -/
def determineBuildDir_part000 (sourceDir presetName : String)
    (manifest : Except String CMakePresets) : Option String × List Effect :=
  match manifest with
  | .ok presetsData =>
    match presetsData.configurePresets.find? (fun p => p.name == presetName) with
    | some configurePreset =>
      match configurePreset.binaryDir with
      | some bd =>
        let d := replaceFirst bd "$" sourceDir
        (some (if strStartsWith d sourceDir then d else pathJoin sourceDir bd),
          [Effect.manifestRead])
      | none => (none, [Effect.manifestRead])
    | none => (none, [Effect.manifestRead])
  | .error e =>
    (some (pathJoin sourceDir ("build-" ++ presetName)),
      [Effect.manifestRead, Effect.warn e])

/-- `getPresetInfo` of `src/scripts/build-maplibre.js` (lines 110-181).
`sourceDir` stands for the module-level constant
`path.resolve(__dirname, '../maplibre-native')`; `platform`/`arch` for
`process.platform`/`process.arch`; `manifest` for the outcome of
`require(cmakePresetsPath)`. The result is the thrown error or the returned
Resolution Result, paired with the effect trace. -/
def getPresetInfo (sourceDir platform arch : String)
    (manifest : Except String CMakePresets) :
    Except String PresetInfo × List Effect :=
  let resolved : Option (String × String × List String) :=
    if platform = "darwin" then
      some ("macos-metal-node", ("Ninja", []))
    else if platform = "linux" then
      some ("linux-opengl-node", ("Ninja", []))
    else if platform = "win32" then
      if arch = "arm64" then
        some ("windows-arm64-opengl-node", ("Visual Studio 17 2022",
          ["-DVCPKG_TARGET_TRIPLET=arm64-windows", "-DBUILD_SHARED_LIBS=ON"]))
      else if arch = "x64" then
        some ("windows-opengl-node", ("Ninja",
          ["-DVCPKG_TARGET_TRIPLET=x64-windows", "-DBUILD_SHARED_LIBS=ON"]))
      else none
    else none
  match resolved with
  | none =>
    (.error ("Unsupported OS/Architecture: " ++ platform ++ "/" ++ arch), [])
  | some (presetName, generator, cmakeArgs) =>
    let db := determineBuildDir sourceDir presetName manifest
    (.ok { presetName := presetName
           buildDir := db.1.getD (pathJoin sourceDir ("build-" ++ presetName))
           generator := generator
           cmakeArgs := cmakeArgs
           arch := arch }, db.2)

/-- `getPresetInfo` of `src/unnamed/part_000` (lines 12-82): the same
mapping, except that the Windows branches push only the
`-DVCPKG_TARGET_TRIPLET` argument (no `-DBUILD_SHARED_LIBS=ON`), and the
build-directory determination is `determineBuildDir_part000`. -/
def getPresetInfo_part000 (sourceDir platform arch : String)
    (manifest : Except String CMakePresets) :
    Except String PresetInfo × List Effect :=
  let resolved : Option (String × String × List String) :=
    if platform = "darwin" then
      some ("macos-metal-node", ("Ninja", []))
    else if platform = "linux" then
      some ("linux-opengl-node", ("Ninja", []))
    else if platform = "win32" then
      if arch = "arm64" then
        some ("windows-arm64-opengl-node", ("Visual Studio 17 2022",
          ["-DVCPKG_TARGET_TRIPLET=arm64-windows"]))
      else if arch = "x64" then
        some ("windows-opengl-node", ("Ninja",
          ["-DVCPKG_TARGET_TRIPLET=x64-windows"]))
      else none
    else none
  match resolved with
  | none =>
    (.error ("Unsupported OS/Architecture: " ++ platform ++ "/" ++ arch), [])
  | some (presetName, generator, cmakeArgs) =>
    let db := determineBuildDir_part000 sourceDir presetName manifest
    (.ok { presetName := presetName
           buildDir := db.1.getD (pathJoin sourceDir ("build-" ++ presetName))
           generator := generator
           cmakeArgs := cmakeArgs
           arch := arch }, db.2)

/-- The `main` wrappers of both scripts run `getPresetInfo` inside a
`try/catch` whose handler calls `process.exit(1)`. This models the exit code
produced when resolution itself fails: `some 1` when `getPresetInfo` throws,
`none` when control proceeds to the build steps. -/
def mainEarlyExit (sourceDir platform arch : String)
    (manifest : Except String CMakePresets) : Option Nat :=
  match (getPresetInfo sourceDir platform arch manifest).1 with
  | .error _ => some 1
  | .ok _ => none

/-- Build-type determination on the Visual-Studio-generator path
(`src/scripts/build-maplibre.js` lines 233-246, identical in
`src/unnamed/part_000` lines 130-143): default `'Release'`; when the manifest
is readable and its entry for the preset has
`cacheVariables.CMAKE_BUILD_TYPE`, use that; a read failure warns and keeps
the default. -/
def getBuildType (manifest : Except String CMakePresets)
    (presetName : String) : String × List Effect :=
  match manifest with
  | .ok presetsData =>
    match presetsData.configurePresets.find? (fun p => p.name == presetName) with
    | some configurePreset =>
      match configurePreset.cacheVariables with
      | some cv =>
        match cv.CMAKE_BUILD_TYPE with
        | some bt => (bt, [])
        | none => ("Release", [])
      | none => ("Release", [])
    | none => ("Release", [])
  | .error e => ("Release", [Effect.warn e])

/-- A filesystem state for the packaging helpers: each path maps to the
contents of the file there, or `none` when absent. -/
abbrev FileSystem : Type := String → Option String

/-- `fs.existsSync(p)`. -/
def existsSync (fs : FileSystem) (p : String) : Bool := (fs p).isSome

/-- `fs.renameSync(src, dst)`: the destination receives the source's
contents (overwriting anything there, as the Node primitive does) and the
source disappears. -/
def renameSync (fs : FileSystem) (src dst : String) : FileSystem :=
  fun p => if p = src then none else if p = dst then fs src else fs p

/-- `path.join('maplibre-native', '.npmignore')`. -/
def npmignorePath : String := "maplibre-native/.npmignore"

/-- `path.join('maplibre-native', '.npmignore.bak')`. -/
def npmignoreBackupPath : String := "maplibre-native/.npmignore.bak"

/-- The prepack helper (`src/unnamed/part_001` lines 16-19): when
`maplibre-native/.npmignore` exists, rename it to the `.bak` path. -/
def prepack (fs : FileSystem) : FileSystem :=
  if existsSync fs npmignorePath then
    renameSync fs npmignorePath npmignoreBackupPath
  else fs

/-- The postpack helper (`src/scripts/postpack.js` lines 16-19): when the
`.bak` path exists, rename it back to `maplibre-native/.npmignore`. -/
def postpack (fs : FileSystem) : FileSystem :=
  if existsSync fs npmignoreBackupPath then
    renameSync fs npmignoreBackupPath npmignorePath
  else fs

/-- C1: for every supported (platform, architecture) pair, `getPresetInfo`
returns exactly the preset name and build tool of the mapping table —
(darwin, any) ↦ macos-metal-node with Ninja; (linux, any) ↦
linux-opengl-node with Ninja; (win32, arm64) ↦ windows-arm64-opengl-node
with the Visual Studio generator; (win32, x64) ↦ windows-opengl-node with
Ninja — independently of the manifest contents; the four equations assign
each supported pair exactly one preset name. -/
theorem C1_mapping_table (sourceDir arch : String)
    (manifest : Except String CMakePresets) :
    ((getPresetInfo sourceDir "darwin" arch manifest).1.map
        (fun r => (r.presetName, r.generator)) =
      .ok ("macos-metal-node", "Ninja"))
  ∧ ((getPresetInfo sourceDir "linux" arch manifest).1.map
        (fun r => (r.presetName, r.generator)) =
      .ok ("linux-opengl-node", "Ninja"))
  ∧ ((getPresetInfo sourceDir "win32" "arm64" manifest).1.map
        (fun r => (r.presetName, r.generator)) =
      .ok ("windows-arm64-opengl-node", "Visual Studio 17 2022"))
  ∧ ((getPresetInfo sourceDir "win32" "x64" manifest).1.map
        (fun r => (r.presetName, r.generator)) =
      .ok ("windows-opengl-node", "Ninja")) :=
  ⟨rfl, rfl, rfl, rfl⟩

/-- C2: for every (platform, architecture) pair outside the mapping table,
`getPresetInfo` throws the UnsupportedPlatform error with an empty effect
trace — no manifest read, no warning, hence no filesystem access or external
process — and `main` exits with code 1. -/
theorem C2_unsupported_fails_fast (sourceDir platform arch : String)
    (manifest : Except String CMakePresets)
    (h : (platform ≠ "darwin" ∧ platform ≠ "linux" ∧ platform ≠ "win32") ∨
         (platform = "win32" ∧ arch ≠ "arm64" ∧ arch ≠ "x64")) :
    getPresetInfo sourceDir platform arch manifest =
      (.error ("Unsupported OS/Architecture: " ++ platform ++ "/" ++ arch), [])
  ∧ mainEarlyExit sourceDir platform arch manifest = some 1 := by
  have hres : getPresetInfo sourceDir platform arch manifest =
      (.error ("Unsupported OS/Architecture: " ++ platform ++ "/" ++ arch), []) := by
    rcases h with ⟨h1, h2, h3⟩ | ⟨h1, h2, h3⟩
    · simp [getPresetInfo, h1, h2, h3]
    · subst h1
      simp [getPresetInfo, h2, h3]
  refine ⟨hres, ?_⟩
  simp [mainEarlyExit, hres]

/-- Witness for C2 at the concrete unsupported pair (freebsd, x64). -/
theorem C2_unsupported_fails_fast_witness :
    ((("freebsd" : String) ≠ "darwin" ∧ ("freebsd" : String) ≠ "linux" ∧
        ("freebsd" : String) ≠ "win32") ∨
      (("freebsd" : String) = "win32" ∧ ("x64" : String) ≠ "arm64" ∧
        ("x64" : String) ≠ "x64"))
  ∧ (getPresetInfo "/src" "freebsd" "x64" (Except.error "absent") =
      (.error ("Unsupported OS/Architecture: " ++ "freebsd" ++ "/" ++ "x64"), [])
    ∧ mainEarlyExit "/src" "freebsd" "x64" (Except.error "absent") = some 1) :=
  ⟨Or.inl (by decide),
   C2_unsupported_fails_fast "/src" "freebsd" "x64" (Except.error "absent")
     (Or.inl (by decide))⟩

/-- C5: for every supported pair, when the manifest read fails (absent,
unreadable or unparsable, modelled as `Except.error e`), resolution still
succeeds, the build directory is the synthesized
`<sourceDir>/build-<presetName>`, and the trace records a warning rather
than an error. -/
theorem C5_manifest_failure_fallback (sourceDir arch e : String) :
    (getPresetInfo sourceDir "darwin" arch (Except.error e) =
      (.ok { presetName := "macos-metal-node"
             buildDir := pathJoin sourceDir "build-macos-metal-node"
             generator := "Ninja", cmakeArgs := [], arch := arch },
        [Effect.manifestRead, Effect.warn e]))
  ∧ (getPresetInfo sourceDir "linux" arch (Except.error e) =
      (.ok { presetName := "linux-opengl-node"
             buildDir := pathJoin sourceDir "build-linux-opengl-node"
             generator := "Ninja", cmakeArgs := [], arch := arch },
        [Effect.manifestRead, Effect.warn e]))
  ∧ (getPresetInfo sourceDir "win32" "arm64" (Except.error e) =
      (.ok { presetName := "windows-arm64-opengl-node"
             buildDir := pathJoin sourceDir "build-windows-arm64-opengl-node"
             generator := "Visual Studio 17 2022"
             cmakeArgs := ["-DVCPKG_TARGET_TRIPLET=arm64-windows",
                           "-DBUILD_SHARED_LIBS=ON"]
             arch := "arm64" },
        [Effect.manifestRead, Effect.warn e]))
  ∧ (getPresetInfo sourceDir "win32" "x64" (Except.error e) =
      (.ok { presetName := "windows-opengl-node"
             buildDir := pathJoin sourceDir "build-windows-opengl-node"
             generator := "Ninja"
             cmakeArgs := ["-DVCPKG_TARGET_TRIPLET=x64-windows",
                           "-DBUILD_SHARED_LIBS=ON"]
             arch := "x64" },
        [Effect.manifestRead, Effect.warn e])) :=
  ⟨rfl, rfl, rfl, rfl⟩

/-- C8: resolution is deterministic — two calls of `getPresetInfo` with
identical platform, architecture and manifest contents yield identical
Resolution Results and traces. -/
theorem C8_resolution_deterministic (sourceDir platform arch : String)
    (m₁ m₂ : Except String CMakePresets) (h : m₁ = m₂) :
    getPresetInfo sourceDir platform arch m₁ =
      getPresetInfo sourceDir platform arch m₂ := by
  rw [h]

/-- Witness for C8 at a concrete input. -/
theorem C8_resolution_deterministic_witness :
    (Except.error "e" : Except String CMakePresets) = Except.error "e"
  ∧ getPresetInfo "/src" "linux" "x64" (Except.error "e") =
      getPresetInfo "/src" "linux" "x64" (Except.error "e") :=
  ⟨rfl, C8_resolution_deterministic "/src" "linux" "x64" _ _ rfl⟩

/-- C3 counterexample: on (win32, arm64), `getPresetInfo` of
`build-maplibre.js` produces a two-element extra-argument list — the target
triplet followed by `-DBUILD_SHARED_LIBS=ON` — not the singleton list the
claim states. -/
theorem C3_counterexample_extra_args :
    (getPresetInfo "/src" "win32" "arm64" (Except.error "absent")).1.map
        (fun r => r.cmakeArgs) =
      .ok ["-DVCPKG_TARGET_TRIPLET=arm64-windows", "-DBUILD_SHARED_LIBS=ON"]
  ∧ (["-DVCPKG_TARGET_TRIPLET=arm64-windows", "-DBUILD_SHARED_LIBS=ON"] :
      List String) ≠ ["-DVCPKG_TARGET_TRIPLET=arm64-windows"] :=
  ⟨rfl, by decide⟩

/-- C3 amended: the extra build-tool arguments are exactly — for
`build-maplibre.js`: the empty list on macOS and Linux, and on Windows the
target-triplet selection followed by `-DBUILD_SHARED_LIBS=ON` (arm64-windows
resp. x64-windows); for the `part_000` revision: the empty list on macOS and
Linux and the singleton triplet list on Windows. -/
theorem C3_amended_extra_args (sourceDir arch : String)
    (manifest : Except String CMakePresets) :
    ((getPresetInfo sourceDir "darwin" arch manifest).1.map
        (fun r => r.cmakeArgs) = .ok [])
  ∧ ((getPresetInfo sourceDir "linux" arch manifest).1.map
        (fun r => r.cmakeArgs) = .ok [])
  ∧ ((getPresetInfo sourceDir "win32" "arm64" manifest).1.map
        (fun r => r.cmakeArgs) =
      .ok ["-DVCPKG_TARGET_TRIPLET=arm64-windows", "-DBUILD_SHARED_LIBS=ON"])
  ∧ ((getPresetInfo sourceDir "win32" "x64" manifest).1.map
        (fun r => r.cmakeArgs) =
      .ok ["-DVCPKG_TARGET_TRIPLET=x64-windows", "-DBUILD_SHARED_LIBS=ON"])
  ∧ ((getPresetInfo_part000 sourceDir "darwin" arch manifest).1.map
        (fun r => r.cmakeArgs) = .ok [])
  ∧ ((getPresetInfo_part000 sourceDir "linux" arch manifest).1.map
        (fun r => r.cmakeArgs) = .ok [])
  ∧ ((getPresetInfo_part000 sourceDir "win32" "arm64" manifest).1.map
        (fun r => r.cmakeArgs) = .ok ["-DVCPKG_TARGET_TRIPLET=arm64-windows"])
  ∧ ((getPresetInfo_part000 sourceDir "win32" "x64" manifest).1.map
        (fun r => r.cmakeArgs) = .ok ["-DVCPKG_TARGET_TRIPLET=x64-windows"]) :=
  ⟨rfl, rfl, rfl, rfl, rfl, rfl, rfl, rfl⟩

/-- A manifest whose `linux-opengl-node` entry carries the `binaryDir`
template `$\x7bsourceDir\x7d/build`, as in the spec's Linux end-to-end
scenario. -/
def manifestC4 : CMakePresets :=
  { configurePresets := [{ name := "linux-opengl-node"
                           binaryDir := some "$\x7bsourceDir\x7d/build"
                           cacheVariables := none }] }

/-- C4: `build-maplibre.js` substitutes the source directory for the
`$\x7bsourceDir\x7d` placeholder of a `binaryDir` template, as the claim
states; the `part_000` revision instead replaces only the literal dollar
sign (`binaryDir.replace('$', ...)`, contradicting its own comment about the
manifest's source-directory variable), so on the template
`$\x7bsourceDir\x7d/build` with source directory `/src` it resolves the
mangled directory `/src\x7bsourceDir\x7d/build` instead of `/src/build`. -/
theorem C4_binaryDir_substitution_divergence :
    ((getPresetInfo "/src" "linux" "x64" (Except.ok manifestC4)).1.map
        (fun r => r.buildDir) = .ok "/src/build")
  ∧ ((getPresetInfo_part000 "/src" "linux" "x64" (Except.ok manifestC4)).1.map
        (fun r => r.buildDir) = .ok "/src\x7bsourceDir\x7d/build")
  ∧ ("/src\x7bsourceDir\x7d/build" : String) ≠ "/src/build" :=
  ⟨by decide, by decide, by decide⟩

/-- C6 counterexample: with identical inputs — (win32, arm64) and an
unreadable manifest — the two script revisions produce different Resolution
Results (their extra cmake arguments differ). -/
theorem C6_counterexample_refinement :
    (getPresetInfo "/src" "win32" "arm64" (Except.error "e")).1 ≠
      (getPresetInfo_part000 "/src" "win32" "arm64" (Except.error "e")).1 := by
  decide

/-- C6 amended: the two revisions agree on preset name, generator and
architecture for every input, and on the build directory whenever the
manifest read fails; they differ in the Windows extra cmake arguments
(`build-maplibre.js` additionally passes `-DBUILD_SHARED_LIBS=ON`) and may
differ in the build directory when a `binaryDir` template is present. -/
theorem C6_amended_refinement (sourceDir platform arch : String)
    (m : Except String CMakePresets) :
    ((getPresetInfo sourceDir platform arch m).1.map
        (fun r => (r.presetName, r.generator, r.arch)) =
      (getPresetInfo_part000 sourceDir platform arch m).1.map
        (fun r => (r.presetName, r.generator, r.arch)))
  ∧ (∀ e, m = Except.error e →
      (getPresetInfo sourceDir platform arch m).1.map (fun r => r.buildDir) =
        (getPresetInfo_part000 sourceDir platform arch m).1.map
          (fun r => r.buildDir)) := by
  constructor
  · by_cases h1 : platform = "darwin"
    · subst h1; rfl
    · by_cases h2 : platform = "linux"
      · subst h2; rfl
      · by_cases h3 : platform = "win32"
        · subst h3
          by_cases h4 : arch = "arm64"
          · subst h4; rfl
          · by_cases h5 : arch = "x64"
            · subst h5; rfl
            · simp [getPresetInfo, getPresetInfo_part000, h4, h5]
        · simp [getPresetInfo, getPresetInfo_part000, h1, h2, h3]
  · rintro e rfl
    by_cases h1 : platform = "darwin"
    · subst h1; rfl
    · by_cases h2 : platform = "linux"
      · subst h2; rfl
      · by_cases h3 : platform = "win32"
        · subst h3
          by_cases h4 : arch = "arm64"
          · subst h4; rfl
          · by_cases h5 : arch = "x64"
            · subst h5; rfl
            · simp [getPresetInfo, getPresetInfo_part000, h4, h5]
        · simp [getPresetInfo, getPresetInfo_part000, h1, h2, h3]

/-- Witness for C6 amended at a concrete input. -/
theorem C6_amended_refinement_witness :
    ((getPresetInfo "/s" "win32" "arm64" (Except.error "e")).1.map
        (fun r => (r.presetName, r.generator, r.arch)) =
      (getPresetInfo_part000 "/s" "win32" "arm64" (Except.error "e")).1.map
        (fun r => (r.presetName, r.generator, r.arch)))
  ∧ ((getPresetInfo "/s" "win32" "arm64" (Except.error "e")).1.map
        (fun r => r.buildDir) =
      (getPresetInfo_part000 "/s" "win32" "arm64" (Except.error "e")).1.map
        (fun r => r.buildDir)) :=
  ⟨(C6_amended_refinement "/s" "win32" "arm64" (Except.error "e")).1,
   (C6_amended_refinement "/s" "win32" "arm64" (Except.error "e")).2 "e" rfl⟩

/-- C7: on the Visual-Studio-generator path, the build type equals the
manifest entry's `cacheVariables.CMAKE_BUILD_TYPE` when that attribute is
present, and defaults to `Release` when the entry lacks `cacheVariables`,
lacks the attribute, is missing, or the manifest is unreadable; the
unreadable case warns and still yields the default, never aborting. -/
theorem C7_build_type (presetName e : String) (d : CMakePresets) :
    ((∀ cp cv bt,
        d.configurePresets.find? (fun p => p.name == presetName) = some cp →
        cp.cacheVariables = some cv → cv.CMAKE_BUILD_TYPE = some bt →
        getBuildType (Except.ok d) presetName = (bt, []))
    ∧ (∀ cp,
        d.configurePresets.find? (fun p => p.name == presetName) = some cp →
        cp.cacheVariables = none →
        getBuildType (Except.ok d) presetName = ("Release", []))
    ∧ (∀ cp cv,
        d.configurePresets.find? (fun p => p.name == presetName) = some cp →
        cp.cacheVariables = some cv → cv.CMAKE_BUILD_TYPE = none →
        getBuildType (Except.ok d) presetName = ("Release", []))
    ∧ (d.configurePresets.find? (fun p => p.name == presetName) = none →
        getBuildType (Except.ok d) presetName = ("Release", [])))
  ∧ getBuildType (Except.error e) presetName = ("Release", [Effect.warn e]) := by
  refine ⟨⟨?_, ?_, ?_, ?_⟩, rfl⟩ <;> intros <;> simp [getBuildType, *]

/-- The configure-preset entry used by the C7 witness: it carries
`CMAKE_BUILD_TYPE = Debug`. -/
def presetC7 : ConfigurePreset :=
  { name := "windows-arm64-opengl-node"
    binaryDir := none
    cacheVariables := some { CMAKE_BUILD_TYPE := some "Debug" } }

/-- The manifest used by the C7 witness. -/
def manifestC7 : CMakePresets := { configurePresets := [presetC7] }

/-- Witness for C7: a manifest entry carrying `CMAKE_BUILD_TYPE = Debug`
yields build type `Debug`. -/
theorem C7_build_type_witness :
    getBuildType (Except.ok manifestC7) "windows-arm64-opengl-node" =
      ("Debug", []) :=
  (C7_build_type "windows-arm64-opengl-node" "e" manifestC7).1.1
    presetC7 { CMAKE_BUILD_TYPE := some "Debug" } "Debug" (by decide) rfl rfl

/-- Helper: a warning in the trace of the build-directory determination
forces the manifest read to have failed with exactly that message. -/
theorem warn_mem_determineBuildDir {sourceDir presetName e : String}
    {m : Except String CMakePresets}
    (h : Effect.warn e ∈ (determineBuildDir sourceDir presetName m).2) :
    m = Except.error e := by
  cases m with
  | ok d =>
    exfalso
    cases hf : d.configurePresets.find? (fun p => p.name == presetName) with
    | none => simp [determineBuildDir, hf] at h
    | some cp =>
      cases hb : cp.binaryDir with
      | none => simp [determineBuildDir, hf, hb] at h
      | some bd => simp [determineBuildDir, hf, hb] at h
  | error msg =>
    simp only [determineBuildDir, List.mem_cons, List.mem_singleton,
      List.not_mem_nil, or_false] at h
    rcases h with h | h
    · cases h
    · cases h
      rfl

/-- Helper: the effect trace of `getPresetInfo` is either empty (the
unsupported-platform throw) or exactly the trace of the build-directory
determination for the resolved preset. -/
theorem getPresetInfo_trace (sourceDir platform arch : String)
    (m : Except String CMakePresets) :
    (getPresetInfo sourceDir platform arch m).2 = [] ∨
    ∃ n, (getPresetInfo sourceDir platform arch m).2 =
      (determineBuildDir sourceDir n m).2 := by
  by_cases h1 : platform = "darwin"
  · subst h1; exact Or.inr ⟨"macos-metal-node", rfl⟩
  · by_cases h2 : platform = "linux"
    · subst h2; exact Or.inr ⟨"linux-opengl-node", rfl⟩
    · by_cases h3 : platform = "win32"
      · subst h3
        by_cases h4 : arch = "arm64"
        · subst h4; exact Or.inr ⟨"windows-arm64-opengl-node", rfl⟩
        · by_cases h5 : arch = "x64"
          · subst h5; exact Or.inr ⟨"windows-opengl-node", rfl⟩
          · left; simp [getPresetInfo, h4, h5]
      · left; simp [getPresetInfo, h1, h2, h3]

/-- C10: when the manifest parses but has no entry for the resolved preset,
or an entry without a `binaryDir`, resolution succeeds with the synthesized
`<sourceDir>/build-<presetName>` and the trace holds only the manifest read —
no warning; a warning appears in the trace only when the manifest read
itself failed. -/
theorem C10_no_warning_on_missing_entry (sourceDir arch : String)
    (d : CMakePresets) :
    ((d.configurePresets.find? (fun p => p.name == "linux-opengl-node") = none ∨
      (∃ cp, d.configurePresets.find?
          (fun p => p.name == "linux-opengl-node") = some cp ∧
        cp.binaryDir = none)) →
      (getPresetInfo sourceDir "linux" arch (Except.ok d)).1.map
          (fun r => r.buildDir) = .ok (pathJoin sourceDir "build-linux-opengl-node")
      ∧ (getPresetInfo sourceDir "linux" arch (Except.ok d)).2 =
          [Effect.manifestRead])
  ∧ ((d.configurePresets.find? (fun p => p.name == "macos-metal-node") = none ∨
      (∃ cp, d.configurePresets.find?
          (fun p => p.name == "macos-metal-node") = some cp ∧
        cp.binaryDir = none)) →
      (getPresetInfo sourceDir "darwin" arch (Except.ok d)).1.map
          (fun r => r.buildDir) = .ok (pathJoin sourceDir "build-macos-metal-node")
      ∧ (getPresetInfo sourceDir "darwin" arch (Except.ok d)).2 =
          [Effect.manifestRead])
  ∧ ((d.configurePresets.find?
        (fun p => p.name == "windows-arm64-opengl-node") = none ∨
      (∃ cp, d.configurePresets.find?
          (fun p => p.name == "windows-arm64-opengl-node") = some cp ∧
        cp.binaryDir = none)) →
      (getPresetInfo sourceDir "win32" "arm64" (Except.ok d)).1.map
          (fun r => r.buildDir) =
        .ok (pathJoin sourceDir "build-windows-arm64-opengl-node")
      ∧ (getPresetInfo sourceDir "win32" "arm64" (Except.ok d)).2 =
          [Effect.manifestRead])
  ∧ ((d.configurePresets.find?
        (fun p => p.name == "windows-opengl-node") = none ∨
      (∃ cp, d.configurePresets.find?
          (fun p => p.name == "windows-opengl-node") = some cp ∧
        cp.binaryDir = none)) →
      (getPresetInfo sourceDir "win32" "x64" (Except.ok d)).1.map
          (fun r => r.buildDir) =
        .ok (pathJoin sourceDir "build-windows-opengl-node")
      ∧ (getPresetInfo sourceDir "win32" "x64" (Except.ok d)).2 =
          [Effect.manifestRead])
  ∧ (∀ (platform2 arch2 : String) (m : Except String CMakePresets)
        (e : String),
      Effect.warn e ∈ (getPresetInfo sourceDir platform2 arch2 m).2 →
      m = Except.error e) := by
  refine ⟨?_, ?_, ?_, ?_, ?_⟩
  case _ =>
    rintro (hf | ⟨cp, hf, hb⟩) <;>
      exact ⟨by simp [getPresetInfo, determineBuildDir, hf, *]; rfl,
             by simp [getPresetInfo, determineBuildDir, hf, *]⟩
  case _ =>
    rintro (hf | ⟨cp, hf, hb⟩) <;>
      exact ⟨by simp [getPresetInfo, determineBuildDir, hf, *]; rfl,
             by simp [getPresetInfo, determineBuildDir, hf, *]⟩
  case _ =>
    rintro (hf | ⟨cp, hf, hb⟩) <;>
      exact ⟨by simp [getPresetInfo, determineBuildDir, hf, *]; rfl,
             by simp [getPresetInfo, determineBuildDir, hf, *]⟩
  case _ =>
    rintro (hf | ⟨cp, hf, hb⟩) <;>
      exact ⟨by simp [getPresetInfo, determineBuildDir, hf, *]; rfl,
             by simp [getPresetInfo, determineBuildDir, hf, *]⟩
  case _ =>
    intro p2 a2 m e h
    rcases getPresetInfo_trace sourceDir p2 a2 m with ht | ⟨n, ht⟩
    · rw [ht] at h; cases h
    · rw [ht] at h; exact warn_mem_determineBuildDir h

/-- Witness for C10: the empty manifest has no entry for
`linux-opengl-node`, and resolution on Linux synthesizes the directory with
no warning in the trace. -/
theorem C10_no_warning_on_missing_entry_witness :
    (getPresetInfo "/src" "linux" "x64"
        (Except.ok { configurePresets := [] })).1.map (fun r => r.buildDir) =
      .ok (pathJoin "/src" "build-linux-opengl-node")
  ∧ (getPresetInfo "/src" "linux" "x64"
        (Except.ok { configurePresets := [] })).2 = [Effect.manifestRead] :=
  (C10_no_warning_on_missing_entry "/src" "x64"
      { configurePresets := [] }).1 (Or.inl (by decide))

/-- The concrete filesystem refuting C9 as stated: both
`maplibre-native/.npmignore` and a stale `maplibre-native/.npmignore.bak`
exist; the hide step overwrites the stale backup, and the restore step then
removes the backup path, so the round trip does not restore the original
state. -/
def fsC9 : FileSystem := fun p =>
  if p = npmignorePath then some "ignore-rules"
  else if p = npmignoreBackupPath then some "stale-backup"
  else none

/-- C9 counterexample: a state where `.npmignore` exists on which
hide-then-restore is not the identity. -/
theorem C9_counterexample_roundtrip :
    fsC9 npmignorePath ≠ none ∧ postpack (prepack fsC9) ≠ fsC9 := by
  refine ⟨by decide, fun h => ?_⟩
  have h2 := congrFun h npmignoreBackupPath
  revert h2
  decide

/-- C9 amended: when `.npmignore` exists and no `.npmignore.bak` is present,
hide (prepack) followed by restore (postpack) returns the filesystem to its
original state; and each helper is a no-op when the file it would rename is
absent. -/
theorem C9_amended_roundtrip (fs : FileSystem) :
    (fs npmignorePath ≠ none → fs npmignoreBackupPath = none →
      postpack (prepack fs) = fs)
  ∧ (fs npmignorePath = none → prepack fs = fs)
  ∧ (fs npmignoreBackupPath = none → postpack fs = fs) := by
  have hne : npmignoreBackupPath ≠ npmignorePath := by decide
  have hne2 : npmignorePath ≠ npmignoreBackupPath := by decide
  refine ⟨?_, ?_, ?_⟩
  · intro hnp hbak
    have hex : existsSync fs npmignorePath = true := by
      simp [existsSync, Option.isSome_iff_ne_none, hnp]
    have hrb : renameSync fs npmignorePath npmignoreBackupPath
        npmignoreBackupPath = fs npmignorePath := by
      simp [renameSync, hne]
    have hex2 : existsSync (renameSync fs npmignorePath npmignoreBackupPath)
        npmignoreBackupPath = true := by
      simp [existsSync, hrb, Option.isSome_iff_ne_none, hnp]
    funext p
    simp only [prepack, hex, if_true, postpack, hex2]
    by_cases hp1 : p = npmignoreBackupPath
    · subst hp1
      simp [renameSync, hne, hbak]
    · by_cases hp2 : p = npmignorePath
      · subst hp2
        simp [renameSync, hne, hne2]
      · simp [renameSync, hp1, hp2]
  · intro hg
    simp [prepack, existsSync, hg]
  · intro hg
    simp [postpack, existsSync, hg]

/-- The filesystem for the C9 witness: `.npmignore` present, no backup. -/
def fsC9w : FileSystem := fun p =>
  if p = npmignorePath then some "ignore-rules" else none

/-- Witness for C9 amended at a concrete filesystem. -/
theorem C9_amended_roundtrip_witness :
    (fsC9w npmignorePath ≠ none ∧ fsC9w npmignoreBackupPath = none)
  ∧ postpack (prepack fsC9w) = fsC9w :=
  ⟨⟨by decide, by decide⟩,
   (C9_amended_roundtrip fsC9w).1 (by decide) (by decide)⟩
